import Mathlib

/-!
Verification of the Insteon PLM driver (`insteonDeviceClasses.py`).

The serial channel is modelled as an environment script: a list of results
for successive `ser.read(n)` calls.  Each entry is `some bs` (the bytes the
channel returns for that read, truncated to the requested count, possibly
shorter on timeout) or `none` (the read raises, i.e. an I/O failure).
An exhausted script behaves as a timed-out channel returning no bytes.
Writes, reads, flushes and sleeps are recorded in an event trace.
Bytes are natural numbers (`chr`/`ord` values, 0–255 at every use site).
`verbose` printing is pure output and is not modelled.
-/

inductive SerEvent where
  | write (bs : List Nat)
  | read (n : Nat)
  | flushIn
  | flushOut
  | sleepTenths (t : Nat)
deriving DecidableEq

abbrev Script := List (Option (List Nat))

abbrev Trace := List SerEvent

/-- Model of `ser.read(n)`: consume the next scripted result.  A serial read
returns at most `n` bytes, hence the truncation; an exhausted script acts as
a timeout that delivers zero bytes. -/
def serRead (n : Nat) : Script → Option (List Nat) × Script
  | [] => (some [], [])
  | r :: rest => (r.map (fun bs => bs.take n), rest)

/-- Model of the `for iResponse in range(nResponse): response += ser.read(11)`
loop in `StdCmd` (lines 274-275): `count` reads of 11 bytes, concatenated in
order; an exception at any read aborts the loop (`none`). -/
def readChunks : Nat → Script → Option (List Nat) × Script × Trace
  | 0, s => (some [], s, [])
  | count + 1, s =>
    match serRead 11 s with
    | (none, s1) => (none, s1, [SerEvent.read 11])
    | (some bs, s1) =>
      match readChunks count s1 with
      | (none, s2, tr) => (none, s2, SerEvent.read 11 :: tr)
      | (some rest, s2, tr) => (some (bs ++ rest), s2, SerEvent.read 11 :: tr)

/-! ### CalcCrcStr (lines 57-77) -/

/-- One iteration of the inner bit loop of `CalcCrcStr` (lines 67-74):
state is `(crcVal, byte)`.  Python's `if (crcVal & 0xNNNN)` tests
truthiness, i.e. nonzero. -/
def crcBitStep (p : Nat × Nat) : Nat × Nat :=
  let fb0 := p.2 &&& 1
  let fb1 := if p.1 &&& 0x8000 ≠ 0 then fb0 ^^^ 1 else fb0
  let fb2 := if p.1 &&& 0x4000 ≠ 0 then fb1 ^^^ 1 else fb1
  let fb3 := if p.1 &&& 0x1000 ≠ 0 then fb2 ^^^ 1 else fb2
  let fb4 := if p.1 &&& 0x0008 ≠ 0 then fb3 ^^^ 1 else fb3
  ((p.1 <<< 1) ||| fb4, p.2 >>> 1)

/-- `k`-fold iteration of the bit step: the `for iByte in range(8)` loop. -/
def crcBitsLoop : Nat → Nat × Nat → Nat × Nat
  | 0, p => p
  | k + 1, p => crcBitsLoop k (crcBitStep p)

/-- Body of the `for iChar in range(len(dataStr))` loop: process one input
byte (8 bit steps). -/
def crcByteStep (crcVal byte : Nat) : Nat :=
  (crcBitsLoop 8 (crcVal, byte)).1

/-- `CalcCrcStr` (lines 57-77): the accumulator starts at 0 and is never
masked (Python integers are unbounded); the two output bytes are
`crcVal >> 8 & 0xff` and `crcVal >> 0 & 0xff`, high byte first. -/
def CalcCrcStr (dataStr : List Nat) : List Nat :=
  let crcVal := dataStr.foldl crcByteStep 0
  [(crcVal >>> 8) &&& 0xff, (crcVal >>> 0) &&& 0xff]

/-! ### Reference CRC (claim C4's algorithm, stated over a 16-bit accumulator) -/

/-- Feedback bit of the reference algorithm in claim C4: starts as the input
bit, flipped in turn if accumulator bit 15 / 14 / 12 / 3 is set. -/
def refFeedback (acc bit : Nat) : Nat :=
  let f0 := bit
  let f1 := if acc.testBit 15 then f0 ^^^ 1 else f0
  let f2 := if acc.testBit 14 then f1 ^^^ 1 else f1
  let f3 := if acc.testBit 12 then f2 ^^^ 1 else f2
  let f4 := if acc.testBit 3 then f3 ^^^ 1 else f3
  f4

/-- Reference bit step: shift the 16-bit accumulator left by one, insert the
feedback bit at bit 0, keep 16 bits. -/
def refBitStep (acc bit : Nat) : Nat :=
  (2 * acc + refFeedback acc bit) % 65536

/-- Reference: consume `k` bits of `byte`, least significant first. -/
def refBitsAux : Nat → Nat → Nat → Nat
  | 0, acc, _ => acc
  | k + 1, acc, byte => refBitsAux k (refBitStep acc (byte % 2)) (byte / 2)

/-- Reference: one input byte is its 8 bits, LSB first. -/
def refByteStep (acc byte : Nat) : Nat :=
  refBitsAux 8 acc byte

/-- Reference CRC of claim C4: 16-bit accumulator from 0 over all input
bytes; emit the accumulator's low 16 bits as two bytes, high byte first. -/
def refCrc (data : List Nat) : List Nat :=
  let acc := data.foldl refByteStep 0
  [acc / 256 % 256, acc % 256]

/-! ### Frame checksum (ExtChecksum, line 213) -/

/-- The one-byte two's-complement checksum of `ExtChecksum` (line 213):
sum the payload bytes mod 256, complement the low byte (`^ 0xff`), add 1,
mod 256. -/
def frameChecksum (payload : List Nat) : Nat :=
  (((payload.sum % 256) ^^^ 0xff) + 1) % 256

/-! ### Exchange functions -/

/-- Result of one exchange: the `[response, error]` pair the Python
functions return (`response` is `""` on every error path). -/
structure ExchOut where
  response : List Nat
  error : Bool
deriving DecidableEq

/-- The `stdErr` accumulation loop of `StdCmd` (lines 287-290):
`stdErr = not((response[1 + 11*i] == chr(0x50)) and (not stdErr))`. -/
def stdErrFold (response : List Nat) (nResponse : Nat) : Bool :=
  (List.range nResponse).foldl
    (fun stdErr i => !(decide (response.getD (1 + 11 * i) 0 = 0x50) && !stdErr))
    false

/-- `StdCmd` (lines 248-302).  Sends an 8-byte standard command, reads the
9-byte echo and `nResponse` 11-byte standard acks; validates lengths, then
the trailing ACK byte (0x06) and each ack's 0x50 marker; flushes both
buffers only when a marker check fails. -/
def StdCmd (s : Script) (cmdStr : List Nat) (nResponse : Nat) :
    ExchOut × Script × Trace :=
  if cmdStr.length ≠ 8 then (⟨[], true⟩, s, [])
  else
    match serRead 9 s with
    | (none, s1) => (⟨[], true⟩, s1, [.write cmdStr, .read 9])
    | (some cmdEcho, s1) =>
      match readChunks nResponse s1 with
      | (none, s2, tr) => (⟨[], true⟩, s2, .write cmdStr :: .read 9 :: tr)
      | (some response, s2, tr) =>
        if cmdEcho.length ≠ 9 ∨ response.length ≠ 11 * nResponse then
          (⟨[], true⟩, s2, .write cmdStr :: .read 9 :: tr)
        else
          let ackErr := !(decide (cmdEcho.getLast? = some 0x06))
          let stdErr := stdErrFold response nResponse
          if ackErr || stdErr then
            (⟨[], true⟩, s2,
              (.write cmdStr :: .read 9 :: tr) ++ [.flushIn, .flushOut])
          else (⟨response, false⟩, s2, .write cmdStr :: .read 9 :: tr)

/-- Shared tail of `ExtCrc` (lines 132-167) and `ExtChecksum` (lines
224-246), whose length/marker validation blocks are textually identical:
length checks (no flush on failure), then ACK byte 0x06, standard-ack
marker 0x50 plus command-1/command-2 echo at the last two ack bytes, and,
when an extended segment was read, its 0x51 marker; a marker failure
flushes both buffers. -/
def extFinish (tempStr cmdEcho stdAck response : List Nat) (extreadback : Bool)
    (s : Script) (tr : Trace) : ExchOut × Script × Trace :=
  let lr := if extreadback then decide (response.length ≠ 25) else false
  if cmdEcho.length ≠ 23 ∨ stdAck.length ≠ 11 ∨ lr then (⟨[], true⟩, s, tr)
  else
    let ackErr := !(decide (cmdEcho.getLast? = some 0x06))
    let stdErr := !(decide (stdAck.getD 1 0 = 0x50)
      && decide (stdAck.getD 9 0 = tempStr.getD 6 0)
      && decide (stdAck.getD 10 0 = tempStr.getD 7 0))
    let extErr := if extreadback then !(decide (response.getD 1 0 = 0x51)) else false
    if ackErr || stdErr || extErr then
      (⟨[], true⟩, s, tr ++ [.flushIn, .flushOut])
    else (⟨response, false⟩, s, tr)

/-- `ExtCrc` (lines 79-167).  Validates the 20-byte command, appends the
2-byte CRC over the last 14 bytes, writes, reads the 23-byte echo, the
11-byte standard ack and (unless `extreadback` is false) the 25-byte
extended response, then validates via `extFinish`. -/
def ExtCrc (s : Script) (cmdStr : List Nat) (extreadback : Bool) :
    ExchOut × Script × Trace :=
  if cmdStr.length ≠ 20 then (⟨[], true⟩, s, [])
  else
    let tempStr := cmdStr ++ CalcCrcStr (cmdStr.drop (cmdStr.length - 14))
    match serRead 23 s with
    | (none, s1) => (⟨[], true⟩, s1, [.write tempStr, .read 23])
    | (some cmdEcho, s1) =>
      match serRead 11 s1 with
      | (none, s2) => (⟨[], true⟩, s2, [.write tempStr, .read 23, .read 11])
      | (some stdAck, s2) =>
        if extreadback then
          match serRead 25 s2 with
          | (none, s3) =>
            (⟨[], true⟩, s3, [.write tempStr, .read 23, .read 11, .read 25])
          | (some response, s3) =>
            extFinish tempStr cmdEcho stdAck response true s3
              [.write tempStr, .read 23, .read 11, .read 25]
        else
          extFinish tempStr cmdEcho stdAck [] false s2
            [.write tempStr, .read 23, .read 11]

/-- `ExtChecksum` (lines 169-246).  Validates the 21-byte command, appends
the one-byte checksum over the last 15 bytes, writes, reads echo/ack and
the 25-byte extended response, then validates via `extFinish`. -/
def ExtChecksum (s : Script) (cmdStr : List Nat) : ExchOut × Script × Trace :=
  if cmdStr.length ≠ 21 then (⟨[], true⟩, s, [])
  else
    let tempStr := cmdStr ++ [frameChecksum (cmdStr.drop (cmdStr.length - 15))]
    match serRead 23 s with
    | (none, s1) => (⟨[], true⟩, s1, [.write tempStr, .read 23])
    | (some cmdEcho, s1) =>
      match serRead 11 s1 with
      | (none, s2) => (⟨[], true⟩, s2, [.write tempStr, .read 23, .read 11])
      | (some stdAck, s2) =>
        match serRead 25 s2 with
        | (none, s3) =>
          (⟨[], true⟩, s3, [.write tempStr, .read 23, .read 11, .read 25])
        | (some response, s3) =>
          extFinish tempStr cmdEcho stdAck response true s3
            [.write tempStr, .read 23, .read 11, .read 25]

/-! ### errorReporting (lines 37-55) -/

/-- `errorReporting` (lines 37-55): all printing aside, it returns
`localError` (`True` in the `if localError` branch, `False` otherwise); the
previous status and verbosity only gate the printed transition messages. -/
def errorReporting (localError : Bool) : Bool :=
  localError

/-! ### Level codecs of the dimmer class -/

/-- Embeds `int(round(level*2.55))` (line 382) exactly, as
`floor(level*51/20 + 1/2) = (51*level + 10) / 20`.  Python 2's `round`
rounds halves away from zero (up, here: the value is nonnegative).  The
double `2.55` exceeds 51/20 by 4.44e-17, so for `level ≤ 100` the float
product is at most 4e-15 above the exact value; ties (level*51/20 a half
integer, margin otherwise ≥ 1/20) occur at level ∈ {10,30,50,70,90}, where
the float product rounds to exactly the tie (excess below half an ulp) and
both roundings agree; hence this integer formula matches the source for
every level that reaches `chr` without raising. -/
def levelToByte (level : Nat) : Nat :=
  (51 * level + 10) / 20

/-- Embeds `int(round(x/2.55))` (line 451) exactly, as
`floor(x*20/51 + 1/2) = (40*x + 51) / 102`.  `x*20/51` is never a half
integer for `x < 256` (that would need 51 to divide 40x with odd quotient,
impossible), the margin from a tie is ≥ 1/102, and the float error is
below 1e-13, so float and exact rounding agree for every byte. -/
def byteToLevel (x : Nat) : Nat :=
  (40 * x + 51) / 102

/-! ### Address validation (dimmer.__init__ lines 354-361, thermostat.__init__ 537-544) -/

/-- Python's `max` over a nonempty list (the guard `len == 3` precedes the
`max`/`min` calls in the source, so the empty case is never reached). -/
def listMax : List Int → Int
  | [] => 0
  | x :: xs => xs.foldl max x

/-- Python's `min` over a nonempty list. -/
def listMin : List Int → Int
  | [] => 0
  | x :: xs => xs.foldl min x

/-- The constructor's address validation (lines 354-361 and 537-544,
identical in both classes): a list whose length is not 3, or whose maximum
exceeds 255 or minimum is below 0, is replaced by the sentinel `[0,0,0]`. -/
def mkAddress (address : List Int) : List Int :=
  if address.length ≠ 3 then [0, 0, 0]
  else if 255 < listMax address ∨ listMin address < 0 then [0, 0, 0]
  else address

/-! ### dimmer (lines 304-455) -/

/-- State of a `dimmer` instance: the class attributes of lines 346-352
(all fresh instances start from these defaults) plus the per-instance
address.  `verbose` only gates printing and is not modelled. -/
structure dimmer where
  address : List Int
  lastSetOn : Bool
  lastSetLevel : Nat
  lastGetOn : Bool
  lastGetLevel : Nat
  manualOverride : Bool
  errorStatus : Bool
deriving DecidableEq

/-- `dimmer.__init__` (lines 354-361). -/
def dimmer.init (address : List Int) : dimmer :=
  { address := mkAddress address
    lastSetOn := false
    lastSetLevel := 0
    lastGetOn := false
    lastGetLevel := 0
    manualOverride := false
    errorStatus := false }

/-- `dimmer.SetOn` (lines 363-392): no-op on the sentinel address;
otherwise flush both buffers, send the standard "on at level" frame, set
`errorStatus` from the exchange, and on success record the commanded state
and clear `manualOverride`. -/
def dimmer.SetOn (d : dimmer) (s : Script) (level : Nat) :
    dimmer × Script × Trace :=
  if d.address = [0, 0, 0] then (d, s, [])
  else
    let tempStr := [0x02, 0x62] ++ d.address.map Int.toNat
      ++ [15, 17, levelToByte level]
    let r := StdCmd s tempStr 1
    let d1 := { d with errorStatus := errorReporting r.1.error }
    if !r.1.error then
      ({ d1 with lastSetOn := true, lastSetLevel := level,
                 manualOverride := false }, r.2.1,
        [.flushIn, .flushOut] ++ r.2.2)
    else (d1, r.2.1, [.flushIn, .flushOut] ++ r.2.2)

/-- `dimmer.SetOff` (lines 394-420). -/
def dimmer.SetOff (d : dimmer) (s : Script) : dimmer × Script × Trace :=
  if d.address = [0, 0, 0] then (d, s, [])
  else
    let tempStr := [2, 98] ++ d.address.map Int.toNat ++ [15, 19, 0]
    let r := StdCmd s tempStr 1
    let d1 := { d with errorStatus := errorReporting r.1.error }
    if !r.1.error then
      ({ d1 with lastSetOn := false, lastSetLevel := 0,
                 manualOverride := false }, r.2.1,
        [.flushIn, .flushOut] ++ r.2.2)
    else (d1, r.2.1, [.flushIn, .flushOut] ++ r.2.2)

/-- `dimmer.GetState` (lines 422-455): on success decode the last response
byte into `lastGetOn`/`lastGetLevel` and set `manualOverride` to true when
the observation disagrees with the commanded state beyond the 2-point
slop — the flag is never cleared here. -/
def dimmer.GetState (d : dimmer) (s : Script) : dimmer × Script × Trace :=
  if d.address = [0, 0, 0] then (d, s, [])
  else
    let tempStr := [2, 98] ++ d.address.map Int.toNat ++ [15, 25, 0]
    let r := StdCmd s tempStr 1
    let d1 := { d with errorStatus := errorReporting r.1.error }
    if !r.1.error then
      let x := (r.1.response.getLast?).getD 0
      let d2 := { d1 with lastGetOn := if x = 0 then false else true,
                          lastGetLevel := byteToLevel x }
      if d2.lastGetOn ≠ d2.lastSetOn
          ∨ 2 < ((d2.lastGetLevel : Int) - (d2.lastSetLevel : Int)).natAbs then
        ({ d2 with manualOverride := true }, r.2.1,
          [.flushIn, .flushOut] ++ r.2.2)
      else (d2, r.2.1, [.flushIn, .flushOut] ++ r.2.2)
    else (d1, r.2.1, [.flushIn, .flushOut] ++ r.2.2)

/-! ### thermostat (lines 457-898) -/

/-- The nine mode names of lines 582-583. -/
def modeTextArray : List String :=
  ["Off", "Heat", "Cool", "Auto", "Fan", "Program",
   "Program Heat", "Program Cool", "Unknown"]

/-- Embeds `int(float(x)/2.0+0.5)` (lines 602-603) exactly: for a byte
`x`, `x/2.0 + 0.5 = (x+1)/2` is computed exactly in binary floating point
and `int` truncates the nonnegative value, giving natural division. -/
def setpointFromByte (x : Nat) : Nat :=
  (x + 1) / 2

/-- State of a `thermostat` instance: class attributes of lines 527-535
plus the address.  `actualTemp` is held in exact tenths of a degree
(`actualTempTenths = ord(response[13])*256 + ord(response[14])`); the
source divides this integer by the inexact double `10.0` only for
presentation, and the mapping to the float is injective, so the tenths
value carries the same information.  `actualHumi` is `float(byte)`, exact
for every byte, held as the byte. -/
structure thermostat where
  address : List Int
  mode : Nat
  modeText : String
  targetHeat : Nat
  targetCool : Nat
  actualTempTenths : Nat
  actualHumi : Nat
  schedule : List (List String)
  errorStatus : Bool
deriving DecidableEq

/-- `thermostat.__init__` (lines 537-544) with the class defaults of lines
527-535. -/
def thermostat.init (address : List Int) : thermostat :=
  { address := mkAddress address
    mode := 0x08
    modeText := "unknown"
    targetHeat := 0
    targetCool := 0
    actualTempTenths := 0
    actualHumi := 0
    schedule := []
    errorStatus := false }

/-- Outcome of one step of `thermostat.GetState`: updated state, whether
this step contributed a failure to `cumError`, remaining script, events. -/
structure StepOut where
  st : thermostat
  fail : Bool
  script : Script
  trace : Trace

/-- The standard-command prefix `preStr` of `thermostat.GetState` (lines
560-561): `0x02 0x62 address 0x0F`. -/
def thermoPre (t : thermostat) : List Nat :=
  [0x02, 0x62] ++ t.address.map Int.toNat ++ [0x0F]

/-- Mode step of `thermostat.GetState` (lines 563-592): exchange
`0x6B 0x02`; `responseMode` is the last response byte (9 when the indexing
raises on the empty error response); only `0 <= responseMode < 8` updates
`mode`/`modeText`, anything else sets the cumulative error and flushes. -/
def thermostat.modeStep (t : thermostat) (s : Script) : StepOut :=
  let r := StdCmd s (thermoPre t ++ [0x6B, 0x02]) 1
  let responseMode := (r.1.response.getLast?).getD 9
  if !r.1.error ∧ responseMode < 8 then
    { st := { t with mode := responseMode,
                     modeText := modeTextArray.getD responseMode "" }
      fail := false
      script := r.2.1
      trace := r.2.2 }
  else
    { st := t
      fail := true
      script := r.2.1
      trace := r.2.2 ++ [.flushIn, .flushOut] }

/-- Setpoint step of `thermostat.GetState` (lines 594-610): exchange
`0x6A 0b00100000` with 2 chained responses; on success the heat setpoint
byte is the last byte of the first 11-byte segment and the cool setpoint
byte the last of the second. -/
def thermostat.setpointStep (t : thermostat) (s : Script) : StepOut :=
  let r := StdCmd s (thermoPre t ++ [0x6A, 0b00100000]) 2
  let responseHeat := r.1.response.take 11
  let responseCool := r.1.response.drop 11
  if !r.1.error then
    { st := { t with
        targetHeat := setpointFromByte ((responseHeat.getLast?).getD 0)
        targetCool := setpointFromByte ((responseCool.getLast?).getD 0) }
      fail := false
      script := r.2.1
      trace := r.2.2 }
  else
    { st := t
      fail := true
      script := r.2.1
      trace := r.2.2 ++ [.flushIn, .flushOut] }

/-- Humidity step of `thermostat.GetState` (lines 612-624): exchange
`0x6A 0b01100000`; on success `actualHumi = float(last byte)`. -/
def thermostat.humidityStep (t : thermostat) (s : Script) : StepOut :=
  let r := StdCmd s (thermoPre t ++ [0x6A, 0b01100000]) 1
  if !r.1.error then
    { st := { t with actualHumi := (r.1.response.getLast?).getD 0 }
      fail := false
      script := r.2.1
      trace := r.2.2 }
  else
    { st := t
      fail := true
      script := r.2.1
      trace := r.2.2 ++ [.flushIn, .flushOut] }

/-- Temperature step of `thermostat.GetState` (lines 626-645): an
extended-checksum exchange `0x2E 0x00` with an all-zero payload (the
flags byte of the prefix becomes 0x1F); on success the temperature in
tenths is `response[13]*256 + response[14]`. -/
def thermostat.tempStep (t : thermostat) (s : Script) : StepOut :=
  let tempStr := [0x02, 0x62] ++ t.address.map Int.toNat ++ [0x1F]
    ++ [0x2E, 0x00] ++ List.replicate 13 0
  let r := ExtChecksum s tempStr
  if !r.1.error then
    { st := { t with actualTempTenths :=
        r.1.response.getD 13 0 * 256 + r.1.response.getD 14 0 }
      fail := false
      script := r.2.1
      trace := r.2.2 }
  else
    { st := t
      fail := true
      script := r.2.1
      trace := r.2.2 ++ [.flushIn, .flushOut] }

/-- `thermostat.GetState` (lines 546-650): no-op on the sentinel address;
otherwise flush, run the four steps unconditionally in sequence, and set
`errorStatus` to the accumulated error. -/
def thermostat.GetState (t : thermostat) (s : Script) :
    thermostat × Script × Trace :=
  if t.address = [0, 0, 0] then (t, s, [])
  else
    let r1 := t.modeStep s
    let r2 := r1.st.setpointStep r1.script
    let r3 := r2.st.humidityStep r2.script
    let r4 := r3.st.tempStep r3.script
    let cum := r1.fail || r2.fail || r3.fail || r4.fail
    ({ r4.st with errorStatus := errorReporting cum }, r4.script,
      [.flushIn, .flushOut] ++ r1.trace ++ r2.trace ++ r3.trace ++ r4.trace)

/-- `thermostat.UpSetPoint` (lines 652-675). -/
def thermostat.UpSetPoint (t : thermostat) (s : Script) :
    thermostat × Script × Trace :=
  if t.address = [0, 0, 0] then (t, s, [])
  else
    let tempStr := [2, 98] ++ t.address.map Int.toNat ++ [15, 0x15, 0]
    let r := StdCmd s tempStr 1
    ({ t with errorStatus := errorReporting r.1.error }, r.2.1,
      [.flushIn, .flushOut] ++ r.2.2 ++ [.sleepTenths 15])

/-- `thermostat.DownSetPoint` (lines 677-700). -/
def thermostat.DownSetPoint (t : thermostat) (s : Script) :
    thermostat × Script × Trace :=
  if t.address = [0, 0, 0] then (t, s, [])
  else
    let tempStr := [2, 98] ++ t.address.map Int.toNat ++ [15, 0x16, 0]
    let r := StdCmd s tempStr 1
    ({ t with errorStatus := errorReporting r.1.error }, r.2.1,
      [.flushIn, .flushOut] ++ r.2.2 ++ [.sleepTenths 15])

/-! ### Schedule codecs (GetSchedule lines 702-789, SetSchedule lines 791-838) -/

/-- The time-byte packing of `SetSchedule` (line 822):
`chr(h*4 + m/15)` with Python integer division. -/
def packTimeByte (h m : Nat) : Nat :=
  h * 4 + m / 15

/-- The hour of `GetSchedule`'s unpacking (lines 773-774):
`t = byte/4.0; h = int(t)`.  For a byte, division by 4.0 is exact in
binary floating point and `int` truncates the nonnegative value, so this
is natural division by 4. -/
def unpackHour (b : Nat) : Nat :=
  b / 4

/-- The minute of `GetSchedule`'s unpacking (line 775):
`m = int((t - h) * 60)`.  `t - h = (b mod 4)/4` and its product with 60
are exact in binary floating point (denominator 4), so this is
`(b mod 4) * 15`. -/
def unpackMin (b : Nat) : Nat :=
  b % 4 * 15

/-- The `"{0:d}:{1:0>2d}:00"` time format of line 725 (minute zero-padded
to two digits). -/
def fmtSchedTime (h m : Nat) : String :=
  toString h ++ ":" ++ (if m < 10 then "0" ++ toString m else toString m) ++ ":00"

/-- `[int(a) for a in schedRow[iCol].split(":")[0:2]]` (line 821): the
hour and minute fields of a `"H:MM:SS"` time string.  `int` on a
malformed field would raise in the source; the model returns 0 there. -/
def parseTimeHM (t : String) : Nat × Nat :=
  match (t.splitOn ":").map (fun a => a.toNat?.getD 0) with
  | h :: m :: _ => (h, m)
  | [h] => (h, 0)
  | [] => (0, 0)

/-- One period's three data bytes in `SetSchedule` (lines 819-825):
time byte, cool byte, heat byte, read from columns `iPeriod*3+5` ff. of
the row. -/
def periodBytesOfRow (row : List String) (iPeriod : Nat) : List Nat :=
  let iCol := iPeriod * 3 + 5
  let hm := parseTimeHM (row.getD iCol "")
  [packTimeByte hm.1 hm.2,
   (row.getD (iCol + 1) "").toNat?.getD 0,
   (row.getD (iCol + 2) "").toNat?.getD 0]

/-- One decoded schedule row of `GetSchedule` (lines 765-778):
`[scheduleId, deviceId, zone, scheduleMode, day]` followed by
`[time, cool, heat]` for each of the 4 periods, all as strings
(`scheduleMode` is the constant 7 of line 715). -/
def schedRowStrings (deviceId zone iDay : Nat) (response : List Nat) :
    List String :=
  [toString (iDay + 1 + (7 - 1) * 7 + 49 * zone), toString deviceId,
   toString zone, toString 7, toString iDay]
  ++ (List.range 4).foldl
      (fun acc iPeriod =>
        let tb := response.getD (11 + iPeriod * 3) 0
        acc ++ [fmtSchedTime (unpackHour tb) (unpackMin tb),
                toString (response.getD (12 + iPeriod * 3) 0),
                toString (response.getD (13 + iPeriod * 3) 0)]) []

/-- The `for iDay in range(7)` loop of `GetSchedule` (lines 727-782) over
an explicit list of days, carrying `(cumError, script)` and accumulating
rows and the trace.  A day's row joins the table only when nothing has
failed so far and its command echo (`response[10] == cmd2+1`) and the four
time bytes (`< 96`) check out; otherwise `cumError` is set. -/
def getSchedDays (addr : List Int) (deviceId zone : Nat) :
    List Nat → Bool → Script → List (List String) × Bool × Script × Trace
  | [], cum, s => ([], cum, s, [])
  | iDay :: rest, cum, s =>
    let tempStr := [0x02, 0x62] ++ addr.map Int.toNat ++ [0x1F]
      ++ [0x2E, 0x0A + iDay * 2] ++ List.replicate 12 0
    let r := ExtCrc s tempStr true
    let cum1 := r.1.error || cum
    let cmdCheck :=
      if !r.1.error then decide (r.1.response.getD 10 0 = 0x0A + iDay * 2 + 1)
      else false
    let timeCheck :=
      if !r.1.error then
        decide (r.1.response.getD 11 0 < 96) && decide (r.1.response.getD 14 0 < 96)
          && decide (r.1.response.getD 17 0 < 96) && decide (r.1.response.getD 20 0 < 96)
      else false
    if !cum1 && cmdCheck && timeCheck then
      let next := getSchedDays addr deviceId zone rest cum1 r.2.1
      (schedRowStrings deviceId zone iDay r.1.response :: next.1,
        next.2.1, next.2.2.1, r.2.2 ++ next.2.2.2)
    else
      let next := getSchedDays addr deviceId zone rest true r.2.1
      (next.1, next.2.1, next.2.2.1, r.2.2 ++ next.2.2.2)

/-- `thermostat.GetSchedule` (lines 702-789): no-op on the sentinel
address; otherwise flush, fetch all 7 days, set `errorStatus` to the
accumulated error, and replace the stored schedule only on full success. -/
def thermostat.GetSchedule (t : thermostat) (s : Script) (deviceId zone : Nat) :
    thermostat × Script × Trace :=
  if t.address = [0, 0, 0] then (t, s, [])
  else
    let r := getSchedDays t.address deviceId zone
      [0, 1, 2, 3, 4, 5, 6] false s
    let t1 := { t with errorStatus := errorReporting r.2.1 }
    if !r.2.1 then
      ({ t1 with schedule := r.1 }, r.2.2.1, [.flushIn, .flushOut] ++ r.2.2.2)
    else (t1, r.2.2.1, [.flushIn, .flushOut] ++ r.2.2.2)

/-- The `for schedRow in schedTable` loop of `SetSchedule` (lines
813-831): for each row send an extended-CRC command with
`command2 = 0x03 + int(row[4])` and the 12 packed period bytes, extended
readback suppressed, sleeping 4 seconds after each write and accumulating
the error. -/
def setSchedRows (addr : List Int) :
    List (List String) → Bool → Script → Bool × Script × Trace
  | [], cum, s => (cum, s, [])
  | row :: rest, cum, s =>
    let cmd2 := 0x03 + (row.getD 4 "").toNat?.getD 0
    let data1Thru12 :=
      (List.range 4).foldl (fun acc iPeriod => acc ++ periodBytesOfRow row iPeriod) []
    let tempStr := [0x02, 0x62] ++ addr.map Int.toNat ++ [0x1F]
      ++ [0x2E, cmd2] ++ data1Thru12
    let r := ExtCrc s tempStr false
    let next := setSchedRows addr rest (r.1.error || cum) r.2.1
    (next.1, next.2.1, r.2.2 ++ [.sleepTenths 40] ++ next.2.2)

/-- `thermostat.SetSchedule` (lines 791-838): no-op on the sentinel
address; a table that is not exactly 7 rows is rejected with no channel
I/O and no state change; otherwise flush, write all 7 days, set
`errorStatus` to the accumulated error and store the table only on full
success. -/
def thermostat.SetSchedule (t : thermostat) (s : Script)
    (schedTable : List (List String)) : thermostat × Script × Trace :=
  if t.address = [0, 0, 0] then (t, s, [])
  else if schedTable.length ≠ 7 then (t, s, [])
  else
    let r := setSchedRows t.address schedTable false s
    let t1 := { t with errorStatus := errorReporting r.1 }
    if !r.1 then
      ({ t1 with schedule := schedTable }, r.2.1, [.flushIn, .flushOut] ++ r.2.2)
    else (t1, r.2.1, [.flushIn, .flushOut] ++ r.2.2)

/-- `thermostat.SetMode` (lines 840-898): no-op on the sentinel address; a
mode outside `4..10` is rejected with no channel I/O and no state change;
otherwise flush and send an extended-checksum command with the mode in the
command-2 byte and a 13-byte zero payload, then sleep 1.5 seconds. -/
def thermostat.SetMode (t : thermostat) (s : Script) (mode : Int) :
    thermostat × Script × Trace :=
  if t.address = [0, 0, 0] then (t, s, [])
  else if mode < 4 ∨ 10 < mode then (t, s, [])
  else
    let tempStr := [0x02, 0x62] ++ t.address.map Int.toNat ++ [0x1F]
      ++ [0x6B, mode.toNat] ++ List.replicate 13 0
    let r := ExtChecksum s tempStr
    ({ t with errorStatus := errorReporting r.1.error }, r.2.1,
      [.flushIn, .flushOut] ++ r.2.2 ++ [.sleepTenths 15])

/-! ### Sentinel no-op helper lemmas -/

theorem dimmer_SetOn_sentinel (d : dimmer) (hd : d.address = [0, 0, 0])
    (s : Script) (level : Nat) : d.SetOn s level = (d, s, []) := by
  unfold dimmer.SetOn; rw [if_pos hd]

theorem dimmer_SetOff_sentinel (d : dimmer) (hd : d.address = [0, 0, 0])
    (s : Script) : d.SetOff s = (d, s, []) := by
  unfold dimmer.SetOff; rw [if_pos hd]

theorem dimmer_GetState_sentinel (d : dimmer) (hd : d.address = [0, 0, 0])
    (s : Script) : d.GetState s = (d, s, []) := by
  unfold dimmer.GetState; rw [if_pos hd]

theorem thermostat_GetState_sentinel (t : thermostat) (ht : t.address = [0, 0, 0])
    (s : Script) : t.GetState s = (t, s, []) := by
  unfold thermostat.GetState; rw [if_pos ht]

theorem thermostat_GetSchedule_sentinel (t : thermostat) (ht : t.address = [0, 0, 0])
    (s : Script) (deviceId zone : Nat) :
    t.GetSchedule s deviceId zone = (t, s, []) := by
  unfold thermostat.GetSchedule; rw [if_pos ht]

theorem thermostat_SetSchedule_sentinel (t : thermostat) (ht : t.address = [0, 0, 0])
    (s : Script) (tbl : List (List String)) :
    t.SetSchedule s tbl = (t, s, []) := by
  unfold thermostat.SetSchedule; rw [if_pos ht]

theorem thermostat_SetMode_sentinel (t : thermostat) (ht : t.address = [0, 0, 0])
    (s : Script) (mode : Int) : t.SetMode s mode = (t, s, []) := by
  unfold thermostat.SetMode; rw [if_pos ht]

theorem thermostat_UpSetPoint_sentinel (t : thermostat) (ht : t.address = [0, 0, 0])
    (s : Script) : t.UpSetPoint s = (t, s, []) := by
  unfold thermostat.UpSetPoint; rw [if_pos ht]

theorem thermostat_DownSetPoint_sentinel (t : thermostat) (ht : t.address = [0, 0, 0])
    (s : Script) : t.DownSetPoint s = (t, s, []) := by
  unfold thermostat.DownSetPoint; rw [if_pos ht]

/-! ### Claim C5 -/

set_option maxRecDepth 4000 in
/-- Claim C5: for every byte sequence used as payload, the sum of all
payload bytes plus the 1-byte checksum computed over that payload is
congruent to 0 modulo 256. -/
theorem c5_checksum_sum_zero (payload : List Nat) :
    (payload.sum + frameChecksum payload) % 256 = 0 := by
  have hb : ∀ t : Nat, t < 256 → t ^^^ 255 = 255 - t := by decide
  have hs : payload.sum % 256 < 256 := Nat.mod_lt _ (by norm_num)
  unfold frameChecksum
  rw [show (0xff : Nat) = 255 from rfl, hb _ hs]
  omega

/-! ### Claim C6 -/

/-- Claim C6: a schedule time on a 15-minute boundary within 0:00-23:45,
together with byte cool/heat setpoints, round-trips through `SetSchedule`'s
time-byte packing and `GetSchedule`'s unpacking: the hour, the minute and
the two setpoint bytes are all recovered exactly. -/
theorem c6_schedule_roundtrip (h m c k : Nat) (hh : h ≤ 23) (hm : m < 60)
    (h15 : m % 15 = 0) :
    unpackHour (packTimeByte h m) = h ∧ unpackMin (packTimeByte h m) = m ∧
    (packTimeByte h m < 96 ∧
      [packTimeByte h m, c, k].getD 1 0 = c ∧ [packTimeByte h m, c, k].getD 2 0 = k) := by
  unfold unpackHour unpackMin packTimeByte
  refine ⟨by omega, by omega, by omega, rfl, rfl⟩

/-- Witness for C6 at the spec's example: wake 06:30, heat 18, cool 24
round-trips exactly. -/
theorem c6_witness :
    unpackHour (packTimeByte 6 30) = 6 ∧ unpackMin (packTimeByte 6 30) = 30 ∧
    (packTimeByte 6 30 < 96 ∧
      [packTimeByte 6 30, 24, 18].getD 1 0 = 24 ∧
      [packTimeByte 6 30, 24, 18].getD 2 0 = 18) :=
  c6_schedule_roundtrip 6 30 24 18 (by decide) (by decide) (by decide)

/-! ### Claim C7 -/

/-- Claim C7: on an instance whose address is the sentinel `[0,0,0]`,
every operation of both device classes performs no channel I/O at all
(empty event trace, script untouched) and returns the state unchanged. -/
theorem c7_sentinel_noop (d : dimmer) (t : thermostat) (s : Script)
    (level : Nat) (tbl : List (List String)) (mode : Int) (deviceId zone : Nat) :
    dimmer.SetOn { d with address := [0, 0, 0] } s level
        = ({ d with address := [0, 0, 0] }, s, []) ∧
    dimmer.SetOff { d with address := [0, 0, 0] } s
        = ({ d with address := [0, 0, 0] }, s, []) ∧
    dimmer.GetState { d with address := [0, 0, 0] } s
        = ({ d with address := [0, 0, 0] }, s, []) ∧
    thermostat.GetState { t with address := [0, 0, 0] } s
        = ({ t with address := [0, 0, 0] }, s, []) ∧
    thermostat.GetSchedule { t with address := [0, 0, 0] } s deviceId zone
        = ({ t with address := [0, 0, 0] }, s, []) ∧
    thermostat.SetSchedule { t with address := [0, 0, 0] } s tbl
        = ({ t with address := [0, 0, 0] }, s, []) ∧
    thermostat.SetMode { t with address := [0, 0, 0] } s mode
        = ({ t with address := [0, 0, 0] }, s, []) ∧
    thermostat.UpSetPoint { t with address := [0, 0, 0] } s
        = ({ t with address := [0, 0, 0] }, s, []) ∧
    thermostat.DownSetPoint { t with address := [0, 0, 0] } s
        = ({ t with address := [0, 0, 0] }, s, []) :=
  ⟨dimmer_SetOn_sentinel _ rfl _ _, dimmer_SetOff_sentinel _ rfl _,
   dimmer_GetState_sentinel _ rfl _, thermostat_GetState_sentinel _ rfl _,
   thermostat_GetSchedule_sentinel _ rfl _ _ _,
   thermostat_SetSchedule_sentinel _ rfl _ _,
   thermostat_SetMode_sentinel _ rfl _ _,
   thermostat_UpSetPoint_sentinel _ rfl _,
   thermostat_DownSetPoint_sentinel _ rfl _⟩

/-! ### Claim C9 -/

/-- Claim C9: caller-argument validation aborts before any channel I/O:
`SetMode` with a mode outside `4..10` and `SetSchedule` with a table whose
row count is not 7 are rejected with an empty event trace (no write, read
or flush) and an unchanged state. -/
theorem c9_validation_no_io (t : thermostat) (s : Script) (mode : Int)
    (tbl : List (List String)) :
    (mode < 4 ∨ 10 < mode → thermostat.SetMode t s mode = (t, s, [])) ∧
    (tbl.length ≠ 7 → thermostat.SetSchedule t s tbl = (t, s, [])) := by
  constructor
  · intro hm
    unfold thermostat.SetMode
    split <;> first | rfl | exact absurd hm (by assumption)
  · intro ht
    unfold thermostat.SetSchedule
    split <;> first | rfl | exact absurd ht (by assumption)

/-- Witness for C9: `SetMode(3)`, `SetMode(11)` and a 0-row `SetSchedule`
on a configured thermostat are all rejected without I/O or state change. -/
theorem c9_witness :
    thermostat.SetMode (thermostat.init [0, 0, 1]) [] 3
        = (thermostat.init [0, 0, 1], [], []) ∧
    thermostat.SetMode (thermostat.init [0, 0, 1]) [] 11
        = (thermostat.init [0, 0, 1], [], []) ∧
    thermostat.SetSchedule (thermostat.init [0, 0, 1]) [] []
        = (thermostat.init [0, 0, 1], [], []) :=
  ⟨(c9_validation_no_io (thermostat.init [0, 0, 1]) [] 3 []).1 (Or.inl (by norm_num)),
   (c9_validation_no_io (thermostat.init [0, 0, 1]) [] 11 []).1 (Or.inr (by norm_num)),
   (c9_validation_no_io (thermostat.init [0, 0, 1]) [] 3 []).2 (by decide)⟩

/-! ### Claim C10 -/

/-- Claim C10: a constructor argument that is not a list of exactly 3
integers in `0..255` yields the sentinel address `[0,0,0]`; every
constructed address is a 3-byte value in range (the sentinel included);
and an instance whose constructed address is the sentinel is inert: every
operation of either class is a no-op with no channel I/O. -/
theorem c10_address_invariant (a : List Int) :
    (¬(a.length = 3 ∧ ∀ x ∈ a, 0 ≤ x ∧ x ≤ 255) → mkAddress a = [0, 0, 0]) ∧
    ((mkAddress a).length = 3 ∧ ∀ x ∈ mkAddress a, 0 ≤ x ∧ x ≤ 255) ∧
    (mkAddress a = [0, 0, 0] →
      ∀ (s : Script) (level : Nat) (tbl : List (List String)) (mode : Int)
        (deviceId zone : Nat),
        dimmer.SetOn (dimmer.init a) s level = (dimmer.init a, s, []) ∧
        dimmer.SetOff (dimmer.init a) s = (dimmer.init a, s, []) ∧
        dimmer.GetState (dimmer.init a) s = (dimmer.init a, s, []) ∧
        thermostat.GetState (thermostat.init a) s = (thermostat.init a, s, []) ∧
        thermostat.GetSchedule (thermostat.init a) s deviceId zone
            = (thermostat.init a, s, []) ∧
        thermostat.SetSchedule (thermostat.init a) s tbl
            = (thermostat.init a, s, []) ∧
        thermostat.SetMode (thermostat.init a) s mode
            = (thermostat.init a, s, []) ∧
        thermostat.UpSetPoint (thermostat.init a) s = (thermostat.init a, s, []) ∧
        thermostat.DownSetPoint (thermostat.init a) s
            = (thermostat.init a, s, []) ) := by
  refine ⟨?_, ?_, ?_⟩
  · intro hbad
    unfold mkAddress
    split
    · rfl
    · next hlen =>
      split
      · rfl
      · next hrange =>
        exfalso
        apply hbad
        have h3 : a.length = 3 := not_not.mp hlen
        obtain ⟨x, y, z, rfl⟩ := List.length_eq_three.mp h3
        refine ⟨h3, ?_⟩
        intro w hw
        simp only [listMax, listMin, List.foldl] at hrange
        simp only [List.mem_cons, List.not_mem_nil, or_false] at hw
        rcases hw with rfl | rfl | rfl <;> omega
  · unfold mkAddress
    split
    · exact ⟨rfl, by decide⟩
    · split
      · exact ⟨rfl, by decide⟩
      · next hlen hrange =>
        have h3 : a.length = 3 := not_not.mp hlen
        refine ⟨h3, ?_⟩
        obtain ⟨x, y, z, rfl⟩ := List.length_eq_three.mp h3
        intro w hw
        simp only [listMax, listMin, List.foldl] at hrange
        simp only [List.mem_cons, List.not_mem_nil, or_false] at hw
        rcases hw with rfl | rfl | rfl <;> omega
  · intro hsent s level tbl mode deviceId zone
    have hd : (dimmer.init a).address = [0, 0, 0] := by
      simp [dimmer.init, hsent]
    have ht : (thermostat.init a).address = [0, 0, 0] := by
      simp [thermostat.init, hsent]
    exact ⟨dimmer_SetOn_sentinel _ hd _ _, dimmer_SetOff_sentinel _ hd _,
      dimmer_GetState_sentinel _ hd _, thermostat_GetState_sentinel _ ht _,
      thermostat_GetSchedule_sentinel _ ht _ _ _,
      thermostat_SetSchedule_sentinel _ ht _ _,
      thermostat_SetMode_sentinel _ ht _ _,
      thermostat_UpSetPoint_sentinel _ ht _,
      thermostat_DownSetPoint_sentinel _ ht _⟩

/-- Witness for C10: a 2-element address and an out-of-range address are
both replaced by the sentinel, and the resulting instance is inert. -/
theorem c10_witness :
    mkAddress [1, 2] = [0, 0, 0] ∧
    mkAddress [300, 0, 0] = [0, 0, 0] ∧
    dimmer.SetOn (dimmer.init [1, 2]) [] 50 = (dimmer.init [1, 2], [], []) :=
  ⟨(c10_address_invariant [1, 2]).1 (by decide),
   (c10_address_invariant [300, 0, 0]).1 (by decide),
   ((c10_address_invariant [1, 2]).2.2
      ((c10_address_invariant [1, 2]).1 (by decide)) [] 50 [] 0 0 0).1⟩

/-! ### Claim C1 -/

theorem dimmer_GetState_error (d : dimmer) (s s1 : Script) (resp : List Nat)
    (tr : Trace) (hna : d.address ≠ [0, 0, 0])
    (hE : StdCmd s ([2, 98] ++ d.address.map Int.toNat ++ [15, 25, 0]) 1
      = (⟨resp, true⟩, s1, tr)) :
    d.GetState s = ({ d with errorStatus := true }, s1,
      .flushIn :: .flushOut :: tr) := by
  simp only [dimmer.GetState, if_neg hna, hE, errorReporting]
  rfl

theorem dimmer_GetState_success (d : dimmer) (s s1 : Script) (resp : List Nat)
    (tr : Trace) (hna : d.address ≠ [0, 0, 0])
    (hE : StdCmd s ([2, 98] ++ d.address.map Int.toNat ++ [15, 25, 0]) 1
      = (⟨resp, false⟩, s1, tr)) :
    d.GetState s =
      ({ d with
          errorStatus := false
          lastGetOn := (if resp.getLast?.getD 0 = 0 then false else true)
          lastGetLevel := byteToLevel (resp.getLast?.getD 0)
          manualOverride :=
            (if (if resp.getLast?.getD 0 = 0 then false else true) ≠ d.lastSetOn
                ∨ 2 < ((byteToLevel (resp.getLast?.getD 0) : Int)
                    - (d.lastSetLevel : Int)).natAbs
            then true else d.manualOverride) }, s1,
        .flushIn :: .flushOut :: tr) := by
  simp only [dimmer.GetState, if_neg hna, hE, errorReporting, Bool.not_false,
    if_true]
  split <;> split <;> rfl

/-- Counterexample to claim C1 as stated: `SetOn(73)` succeeds, a
successful `GetState` observing level byte 102 (level 40) sets
`manualOverride`, then a second successful `GetState` observing level byte
186 (level 73, matching the commanded state exactly) leaves
`manualOverride` true — the claimed iff requires it to be false after that
final matching `GetState`. -/
theorem c1_counterexample :
    ((((dimmer.init [0, 0, 1]).SetOn
        [some [2, 98, 0, 0, 1, 15, 17, 186, 6],
         some [2, 80, 0, 0, 1, 0, 0, 0, 0, 0, 186]] 73).1.GetState
        [some [2, 98, 0, 0, 1, 15, 25, 0, 6],
         some [2, 80, 0, 0, 1, 0, 0, 0, 0, 0, 102]]).1.GetState
        [some [2, 98, 0, 0, 1, 15, 25, 0, 6],
         some [2, 80, 0, 0, 1, 0, 0, 0, 0, 0, 186]]).1.errorStatus = false ∧
    ((((dimmer.init [0, 0, 1]).SetOn
        [some [2, 98, 0, 0, 1, 15, 17, 186, 6],
         some [2, 80, 0, 0, 1, 0, 0, 0, 0, 0, 186]] 73).1.GetState
        [some [2, 98, 0, 0, 1, 15, 25, 0, 6],
         some [2, 80, 0, 0, 1, 0, 0, 0, 0, 0, 102]]).1.GetState
        [some [2, 98, 0, 0, 1, 15, 25, 0, 6],
         some [2, 80, 0, 0, 1, 0, 0, 0, 0, 0, 186]]).1.lastGetOn
      = ((((dimmer.init [0, 0, 1]).SetOn
        [some [2, 98, 0, 0, 1, 15, 17, 186, 6],
         some [2, 80, 0, 0, 1, 0, 0, 0, 0, 0, 186]] 73).1.GetState
        [some [2, 98, 0, 0, 1, 15, 25, 0, 6],
         some [2, 80, 0, 0, 1, 0, 0, 0, 0, 0, 102]]).1.GetState
        [some [2, 98, 0, 0, 1, 15, 25, 0, 6],
         some [2, 80, 0, 0, 1, 0, 0, 0, 0, 0, 186]]).1.lastSetOn ∧
    (((((((dimmer.init [0, 0, 1]).SetOn
        [some [2, 98, 0, 0, 1, 15, 17, 186, 6],
         some [2, 80, 0, 0, 1, 0, 0, 0, 0, 0, 186]] 73).1.GetState
        [some [2, 98, 0, 0, 1, 15, 25, 0, 6],
         some [2, 80, 0, 0, 1, 0, 0, 0, 0, 0, 102]]).1.GetState
        [some [2, 98, 0, 0, 1, 15, 25, 0, 6],
         some [2, 80, 0, 0, 1, 0, 0, 0, 0, 0, 186]]).1.lastGetLevel : Int)
      - ((((dimmer.init [0, 0, 1]).SetOn
        [some [2, 98, 0, 0, 1, 15, 17, 186, 6],
         some [2, 80, 0, 0, 1, 0, 0, 0, 0, 0, 186]] 73).1.GetState
        [some [2, 98, 0, 0, 1, 15, 25, 0, 6],
         some [2, 80, 0, 0, 1, 0, 0, 0, 0, 0, 102]]).1.GetState
        [some [2, 98, 0, 0, 1, 15, 25, 0, 6],
         some [2, 80, 0, 0, 1, 0, 0, 0, 0, 0, 186]]).1.lastSetLevel : Int)).natAbs ≤ 2 ∧
    ((((dimmer.init [0, 0, 1]).SetOn
        [some [2, 98, 0, 0, 1, 15, 17, 186, 6],
         some [2, 80, 0, 0, 1, 0, 0, 0, 0, 0, 186]] 73).1.GetState
        [some [2, 98, 0, 0, 1, 15, 25, 0, 6],
         some [2, 80, 0, 0, 1, 0, 0, 0, 0, 0, 102]]).1.GetState
        [some [2, 98, 0, 0, 1, 15, 25, 0, 6],
         some [2, 80, 0, 0, 1, 0, 0, 0, 0, 0, 186]]).1.manualOverride = true := by
  decide

/-- Amended claim C1: after a successful `GetState` on a configured
dimmer, the commanded state is untouched and `manualOverride` equals its
previous value OR-ed with the discrepancy test (observed on/off differs
from last commanded, or observed level differs from the last commanded
level by more than 2): the flag is set on discrepancy but never cleared by
`GetState`, so a matching observation leaves it at its previous value. -/
theorem c1_amended_override_sticky (d : dimmer) (s : Script)
    (hna : d.address ≠ [0, 0, 0])
    (hs : ((d.GetState s).1).errorStatus = false) :
    ((d.GetState s).1).lastSetOn = d.lastSetOn ∧
    ((d.GetState s).1).lastSetLevel = d.lastSetLevel ∧
    ((d.GetState s).1).manualOverride =
      (d.manualOverride
        || decide (((d.GetState s).1).lastGetOn ≠ d.lastSetOn
             ∨ 2 < (((((d.GetState s).1).lastGetLevel) : Int)
                      - (d.lastSetLevel : Int)).natAbs)) := by
  rcases hE : StdCmd s ([2, 98] ++ d.address.map Int.toNat ++ [15, 25, 0]) 1
    with ⟨⟨resp, err⟩, s1, tr⟩
  cases err with
  | true =>
    rw [dimmer_GetState_error d s s1 resp tr hna hE] at hs
    simp at hs
  | false =>
    rw [dimmer_GetState_success d s s1 resp tr hna hE]
    refine ⟨rfl, rfl, ?_⟩
    dsimp only
    by_cases hc : (if resp.getLast?.getD 0 = 0 then false else true) ≠ d.lastSetOn
        ∨ 2 < ((byteToLevel (resp.getLast?.getD 0) : Int)
            - (d.lastSetLevel : Int)).natAbs
    · rw [if_pos hc, decide_eq_true hc, Bool.or_true]
    · rw [if_neg hc, decide_eq_false hc, Bool.or_false]

/-- Witness for the amended C1 at a fresh dimmer and a successful exchange
observing level byte 0: both hypotheses hold and the conclusion follows by
applying the theorem. -/
theorem c1_amended_witness :
    (((dimmer.init [0, 0, 1]).GetState
        [some [2, 98, 0, 0, 1, 15, 25, 0, 6],
         some [2, 80, 0, 0, 1, 0, 0, 0, 0, 0, 0]]).1).lastSetOn
      = (dimmer.init [0, 0, 1]).lastSetOn ∧
    (((dimmer.init [0, 0, 1]).GetState
        [some [2, 98, 0, 0, 1, 15, 25, 0, 6],
         some [2, 80, 0, 0, 1, 0, 0, 0, 0, 0, 0]]).1).lastSetLevel
      = (dimmer.init [0, 0, 1]).lastSetLevel ∧
    (((dimmer.init [0, 0, 1]).GetState
        [some [2, 98, 0, 0, 1, 15, 25, 0, 6],
         some [2, 80, 0, 0, 1, 0, 0, 0, 0, 0, 0]]).1).manualOverride =
      ((dimmer.init [0, 0, 1]).manualOverride
        || decide ((((dimmer.init [0, 0, 1]).GetState
              [some [2, 98, 0, 0, 1, 15, 25, 0, 6],
               some [2, 80, 0, 0, 1, 0, 0, 0, 0, 0, 0]]).1).lastGetOn
              ≠ (dimmer.init [0, 0, 1]).lastSetOn
            ∨ 2 < (((((dimmer.init [0, 0, 1]).GetState
                  [some [2, 98, 0, 0, 1, 15, 25, 0, 6],
                   some [2, 80, 0, 0, 1, 0, 0, 0, 0, 0, 0]]).1).lastGetLevel : Int)
                - ((dimmer.init [0, 0, 1]).lastSetLevel : Int)).natAbs)) :=
  c1_amended_override_sticky (dimmer.init [0, 0, 1])
    [some [2, 98, 0, 0, 1, 15, 25, 0, 6],
     some [2, 80, 0, 0, 1, 0, 0, 0, 0, 0, 0]] (by decide) (by decide)

/-! ### Shared exchange and step lemmas for the thermostat claims -/

theorem StdCmd_one_success (s : Script) (cmd e r : List Nat)
    (hc : cmd.length = 8) (he : e.length = 9) (hack : e.getLast? = some 6)
    (hr : r.length = 11) (hmark : r.getD 1 0 = 0x50) :
    StdCmd (some e :: some r :: s) cmd 1
      = (⟨r, false⟩, s, [.write cmd, .read 9, .read 11]) := by
  simp only [StdCmd, if_neg (show ¬cmd.length ≠ 8 by omega), serRead, readChunks,
    Option.map_some']
  rw [List.take_of_length_le (le_of_eq he), List.take_of_length_le (le_of_eq hr)]
  simp only [List.append_nil, he, hr]
  rw [if_neg (by omega)]
  simp only [stdErrFold, show List.range 1 = [0] from rfl, List.foldl, hmark, hack]
  simp

theorem modeStep_preserves (t : thermostat) (s : Script) :
    ((t.modeStep s).st).targetHeat = t.targetHeat ∧
    ((t.modeStep s).st).targetCool = t.targetCool ∧
    ((t.modeStep s).st).actualHumi = t.actualHumi ∧
    ((t.modeStep s).st).actualTempTenths = t.actualTempTenths ∧
    ((t.modeStep s).st).schedule = t.schedule ∧
    ((t.modeStep s).st).errorStatus = t.errorStatus ∧
    ((t.modeStep s).st).address = t.address := by
  simp only [thermostat.modeStep]
  split <;> exact ⟨rfl, rfl, rfl, rfl, rfl, rfl, rfl⟩

theorem setpointStep_preserves (t : thermostat) (s : Script) :
    ((t.setpointStep s).st).mode = t.mode ∧
    ((t.setpointStep s).st).modeText = t.modeText ∧
    ((t.setpointStep s).st).actualHumi = t.actualHumi ∧
    ((t.setpointStep s).st).actualTempTenths = t.actualTempTenths ∧
    ((t.setpointStep s).st).schedule = t.schedule ∧
    ((t.setpointStep s).st).errorStatus = t.errorStatus ∧
    ((t.setpointStep s).st).address = t.address := by
  simp only [thermostat.setpointStep]
  split <;> exact ⟨rfl, rfl, rfl, rfl, rfl, rfl, rfl⟩

theorem humidityStep_preserves (t : thermostat) (s : Script) :
    ((t.humidityStep s).st).mode = t.mode ∧
    ((t.humidityStep s).st).modeText = t.modeText ∧
    ((t.humidityStep s).st).targetHeat = t.targetHeat ∧
    ((t.humidityStep s).st).targetCool = t.targetCool ∧
    ((t.humidityStep s).st).actualTempTenths = t.actualTempTenths ∧
    ((t.humidityStep s).st).schedule = t.schedule ∧
    ((t.humidityStep s).st).errorStatus = t.errorStatus ∧
    ((t.humidityStep s).st).address = t.address := by
  simp only [thermostat.humidityStep]
  split <;> exact ⟨rfl, rfl, rfl, rfl, rfl, rfl, rfl, rfl⟩

theorem tempStep_preserves (t : thermostat) (s : Script) :
    ((t.tempStep s).st).mode = t.mode ∧
    ((t.tempStep s).st).modeText = t.modeText ∧
    ((t.tempStep s).st).targetHeat = t.targetHeat ∧
    ((t.tempStep s).st).targetCool = t.targetCool ∧
    ((t.tempStep s).st).actualHumi = t.actualHumi ∧
    ((t.tempStep s).st).schedule = t.schedule ∧
    ((t.tempStep s).st).errorStatus = t.errorStatus ∧
    ((t.tempStep s).st).address = t.address := by
  simp only [thermostat.tempStep]
  split <;> exact ⟨rfl, rfl, rfl, rfl, rfl, rfl, rfl, rfl⟩

theorem modeStep_fail_same (t : thermostat) (s : Script)
    (h : (t.modeStep s).fail = true) :
    ((t.modeStep s).st).mode = t.mode ∧
    ((t.modeStep s).st).modeText = t.modeText := by
  revert h
  simp only [thermostat.modeStep]
  split <;> intro h
  · simp at h
  · exact ⟨rfl, rfl⟩

theorem setpointStep_fail_same (t : thermostat) (s : Script)
    (h : (t.setpointStep s).fail = true) :
    ((t.setpointStep s).st).targetHeat = t.targetHeat ∧
    ((t.setpointStep s).st).targetCool = t.targetCool := by
  revert h
  simp only [thermostat.setpointStep]
  split <;> intro h
  · simp at h
  · exact ⟨rfl, rfl⟩

theorem humidityStep_fail_same (t : thermostat) (s : Script)
    (h : (t.humidityStep s).fail = true) :
    ((t.humidityStep s).st).actualHumi = t.actualHumi := by
  revert h
  simp only [thermostat.humidityStep]
  split <;> intro h
  · simp at h
  · rfl

theorem tempStep_fail_same (t : thermostat) (s : Script)
    (h : (t.tempStep s).fail = true) :
    ((t.tempStep s).st).actualTempTenths = t.actualTempTenths := by
  revert h
  simp only [thermostat.tempStep]
  split <;> intro h
  · simp at h
  · rfl

theorem thermostat_GetState_parts (t : thermostat) (s : Script) (hna : t.address ≠ [0, 0, 0])
    (r1 r2 r3 r4 : StepOut)
    (h1 : t.modeStep s = r1) (h2 : r1.st.setpointStep r1.script = r2)
    (h3 : r2.st.humidityStep r2.script = r3) (h4 : r3.st.tempStep r3.script = r4) :
    ((t.GetState s).1).errorStatus = (r1.fail || r2.fail || r3.fail || r4.fail) ∧
    ((t.GetState s).1).mode = r1.st.mode ∧
    ((t.GetState s).1).modeText = r1.st.modeText ∧
    ((t.GetState s).1).targetHeat = r2.st.targetHeat ∧
    ((t.GetState s).1).targetCool = r2.st.targetCool ∧
    ((t.GetState s).1).actualHumi = r3.st.actualHumi ∧
    ((t.GetState s).1).actualTempTenths = r4.st.actualTempTenths ∧
    (r1.fail = true → ((t.GetState s).1).mode = t.mode
      ∧ ((t.GetState s).1).modeText = t.modeText) ∧
    (r2.fail = true → ((t.GetState s).1).targetHeat = t.targetHeat
      ∧ ((t.GetState s).1).targetCool = t.targetCool) ∧
    (r3.fail = true → ((t.GetState s).1).actualHumi = t.actualHumi) ∧
    (r4.fail = true → ((t.GetState s).1).actualTempTenths = t.actualTempTenths) ∧
    (t.GetState s).2.2
      = [.flushIn, .flushOut] ++ r1.trace ++ r2.trace ++ r3.trace ++ r4.trace := by
  have hG : t.GetState s =
      ({ r4.st with errorStatus := (r1.fail || r2.fail || r3.fail || r4.fail) },
        r4.script,
        [.flushIn, .flushOut] ++ r1.trace ++ r2.trace ++ r3.trace ++ r4.trace) := by
    simp only [thermostat.GetState, if_neg hna, errorReporting, h1, h2, h3, h4]
  have hmode4 : r4.st.mode = r1.st.mode := by
    rw [← h4, (tempStep_preserves r3.st r3.script).1,
      ← h3, (humidityStep_preserves r2.st r2.script).1,
      ← h2, (setpointStep_preserves r1.st r1.script).1]
  have hmodeT4 : r4.st.modeText = r1.st.modeText := by
    rw [← h4, (tempStep_preserves r3.st r3.script).2.1,
      ← h3, (humidityStep_preserves r2.st r2.script).2.1,
      ← h2, (setpointStep_preserves r1.st r1.script).2.1]
  have hheat4 : r4.st.targetHeat = r2.st.targetHeat := by
    rw [← h4, (tempStep_preserves r3.st r3.script).2.2.1,
      ← h3, (humidityStep_preserves r2.st r2.script).2.2.1]
  have hcool4 : r4.st.targetCool = r2.st.targetCool := by
    rw [← h4, (tempStep_preserves r3.st r3.script).2.2.2.1,
      ← h3, (humidityStep_preserves r2.st r2.script).2.2.2.1]
  have hhumi4 : r4.st.actualHumi = r3.st.actualHumi := by
    rw [← h4, (tempStep_preserves r3.st r3.script).2.2.2.2.1]
  refine ⟨by rw [hG], by rw [hG]; exact hmode4, by rw [hG]; exact hmodeT4,
    by rw [hG]; exact hheat4, by rw [hG]; exact hcool4, by rw [hG]; exact hhumi4,
    by rw [hG], ?_, ?_, ?_, ?_, by rw [hG]⟩
  · intro hf
    have hm := modeStep_fail_same t s (by rw [h1]; exact hf)
    rw [h1] at hm
    rw [hG]
    exact ⟨hmode4.trans hm.1, hmodeT4.trans hm.2⟩
  · intro hf
    have hsp := setpointStep_fail_same r1.st r1.script (by rw [h2]; exact hf)
    rw [h2] at hsp
    rw [hG]
    constructor
    · show r4.st.targetHeat = t.targetHeat
      rw [hheat4, hsp.1, ← h1, (modeStep_preserves t s).1]
    · show r4.st.targetCool = t.targetCool
      rw [hcool4, hsp.2, ← h1, (modeStep_preserves t s).2.1]
  · intro hf
    have hh := humidityStep_fail_same r2.st r2.script (by rw [h3]; exact hf)
    rw [h3] at hh
    rw [hG]
    show r4.st.actualHumi = t.actualHumi
    rw [hhumi4, hh, ← h2, (setpointStep_preserves r1.st r1.script).2.2.1,
      ← h1, (modeStep_preserves t s).2.2.1]
  · intro hf
    have ht4 := tempStep_fail_same r3.st r3.script (by rw [h4]; exact hf)
    rw [h4] at ht4
    rw [hG]
    show r4.st.actualTempTenths = t.actualTempTenths
    rw [ht4, ← h3, (humidityStep_preserves r2.st r2.script).2.2.2.2.1,
      ← h2, (setpointStep_preserves r1.st r1.script).2.2.2.1,
      ← h1, (modeStep_preserves t s).2.2.2.1]


/-! ### Claim C2 -/

/-- Amended claim C2: in thermostat `GetState`, a successful mode exchange
whose response byte is `m` updates `mode`/`modeText` to the decoded value
only for `m < 8` (the eight named modes); any byte `>= 8` — including the
8 = Unknown sentinel, which the device never returns and the decode does
not accept — is invalid: the stored mode is left unchanged and the step's
error forces the overall call to report failure. -/
theorem c2_amended_mode_decode (t : thermostat) (e r : List Nat) (rest : Script) (m : Nat)
    (ha : t.address.length = 3) (hna : t.address ≠ [0, 0, 0])
    (he : e.length = 9) (hack : e.getLast? = some 6)
    (hr : r.length = 11) (hmark : r.getD 1 0 = 0x50) (hm : r.getLast? = some m) :
    ((t.GetState (some e :: some r :: rest)).1).mode
      = (if m < 8 then m else t.mode) ∧
    ((t.GetState (some e :: some r :: rest)).1).modeText
      = (if m < 8 then modeTextArray.getD m "" else t.modeText) ∧
    (8 ≤ m → ((t.GetState (some e :: some r :: rest)).1).errorStatus = true) := by
  have hcmd : (thermoPre t ++ [0x6B, 0x02]).length = 8 := by
    simp [thermoPre, ha]
  have hstd := StdCmd_one_success rest (thermoPre t ++ [0x6B, 0x02]) e r hcmd he hack
    hr hmark
  have hms : t.modeStep (some e :: some r :: rest) =
      (if m < 8 then
        { st := { t with mode := m, modeText := modeTextArray.getD m "" }
          fail := false
          script := rest
          trace := [.write (thermoPre t ++ [0x6B, 0x02]), .read 9, .read 11] }
      else
        { st := t
          fail := true
          script := rest
          trace := [.write (thermoPre t ++ [0x6B, 0x02]), .read 9, .read 11]
            ++ [.flushIn, .flushOut] }) := by
    simp only [thermostat.modeStep, hstd, hm, Option.getD_some, Bool.not_false]
    split <;> split <;> first | rfl | (exfalso ; omega) | simp_all
  obtain ⟨herr, hmode, hmodeT, _, _, _, _, hfail1, _⟩ :=
    thermostat_GetState_parts t (some e :: some r :: rest) hna
      (t.modeStep (some e :: some r :: rest)) _ _ _ rfl rfl rfl rfl
  by_cases h8 : m < 8
  · rw [if_pos h8, if_pos h8]
    rw [hms, if_pos h8] at hmode hmodeT
    exact ⟨hmode, hmodeT, fun hge => absurd h8 (by omega)⟩
  · rw [if_neg h8, if_neg h8]
    have hf1 : (t.modeStep (some e :: some r :: rest)).fail = true := by
      rw [hms, if_neg h8]
    obtain ⟨hm1, hm2⟩ := hfail1 hf1
    refine ⟨hm1, hm2, fun _ => ?_⟩
    rw [herr, hf1]
    rfl

/-- Counterexample to claim C2 as stated: a fully successful `GetState`
whose mode response byte is 8 does not set the mode to 8/Unknown — the
code requires `responseMode < 8`, so byte 8 is treated as invalid: the
stored mode stays `Cool` (2) and the call reports failure. -/
theorem c2_counterexample :
    (({ thermostat.init [0, 0, 1] with mode := 2, modeText := "Cool" }).GetState
      [some [2, 98, 0, 0, 1, 15, 107, 2, 6],
       some [2, 80, 0, 0, 1, 0, 0, 0, 0, 0, 8],
       some [2, 98, 0, 0, 1, 15, 106, 32, 6],
       some [2, 80, 0, 0, 1, 0, 0, 0, 0, 0, 36],
       some [2, 80, 0, 0, 1, 0, 0, 0, 0, 0, 48],
       some [2, 98, 0, 0, 1, 15, 106, 96, 6],
       some [2, 80, 0, 0, 1, 0, 0, 0, 0, 0, 45],
       some (List.replicate 22 0 ++ [6]),
       some [0, 80, 0, 0, 0, 0, 0, 0, 0, 46, 0],
       some ([0, 81] ++ List.replicate 11 0 ++ [0, 215] ++ List.replicate 10 0)]).1
    = { address := [0, 0, 1], mode := 2, modeText := "Cool", targetHeat := 18,
        targetCool := 24, actualTempTenths := 215, actualHumi := 45,
        schedule := [], errorStatus := true } := by
  decide

/-- Witness for the amended C2: byte 9 on a successful mode exchange
leaves the fresh thermostat's mode at its previous value (8, "unknown")
and forces the overall error. -/
theorem c2_amended_witness :
    ((thermostat.init [0, 0, 1]).GetState
        (some [2, 98, 0, 0, 1, 15, 107, 2, 6]
          :: some [2, 80, 0, 0, 1, 0, 0, 0, 0, 0, 9] :: [])).1.mode
      = (if 9 < 8 then 9 else (thermostat.init [0, 0, 1]).mode) ∧
    ((thermostat.init [0, 0, 1]).GetState
        (some [2, 98, 0, 0, 1, 15, 107, 2, 6]
          :: some [2, 80, 0, 0, 1, 0, 0, 0, 0, 0, 9] :: [])).1.modeText
      = (if 9 < 8 then modeTextArray.getD 9 ""
          else (thermostat.init [0, 0, 1]).modeText) ∧
    (8 ≤ 9 → ((thermostat.init [0, 0, 1]).GetState
        (some [2, 98, 0, 0, 1, 15, 107, 2, 6]
          :: some [2, 80, 0, 0, 1, 0, 0, 0, 0, 0, 9] :: [])).1.errorStatus = true) :=
  c2_amended_mode_decode (thermostat.init [0, 0, 1])
    [2, 98, 0, 0, 1, 15, 107, 2, 6] [2, 80, 0, 0, 1, 0, 0, 0, 0, 0, 9] [] 9
    (by decide) (by decide) (by decide) (by decide) (by decide) (by decide)
    (by decide)

/-! ### Claim C8 -/

/-- Claim C8: thermostat `GetState` runs its four exchanges (mode,
heat+cool setpoints via 2 chained responses, humidity, temperature via
extended checksum) unconditionally in sequence: each step's stored fields
in the final state are exactly that step's outcome (so later steps still
run and update on success whatever happened before), a failed step leaves
its fields at their previous values, the trace is the concatenation of all
four steps' traces, and the call reports failure iff at least one step
failed. -/
theorem c8_getstate_steps (t : thermostat) (s : Script)
    (hna : t.address ≠ [0, 0, 0]) (r1 r2 r3 r4 : StepOut)
    (h1 : t.modeStep s = r1) (h2 : r1.st.setpointStep r1.script = r2)
    (h3 : r2.st.humidityStep r2.script = r3)
    (h4 : r3.st.tempStep r3.script = r4) :
    ((t.GetState s).1).errorStatus = (r1.fail || r2.fail || r3.fail || r4.fail) ∧
    ((t.GetState s).1).mode = r1.st.mode ∧
    ((t.GetState s).1).modeText = r1.st.modeText ∧
    ((t.GetState s).1).targetHeat = r2.st.targetHeat ∧
    ((t.GetState s).1).targetCool = r2.st.targetCool ∧
    ((t.GetState s).1).actualHumi = r3.st.actualHumi ∧
    ((t.GetState s).1).actualTempTenths = r4.st.actualTempTenths ∧
    (r1.fail = true → ((t.GetState s).1).mode = t.mode
      ∧ ((t.GetState s).1).modeText = t.modeText) ∧
    (r2.fail = true → ((t.GetState s).1).targetHeat = t.targetHeat
      ∧ ((t.GetState s).1).targetCool = t.targetCool) ∧
    (r3.fail = true → ((t.GetState s).1).actualHumi = t.actualHumi) ∧
    (r4.fail = true → ((t.GetState s).1).actualTempTenths = t.actualTempTenths) ∧
    (t.GetState s).2.2
      = [.flushIn, .flushOut] ++ r1.trace ++ r2.trace ++ r3.trace ++ r4.trace :=
  thermostat_GetState_parts t s hna r1 r2 r3 r4 h1 h2 h3 h4

/-- Witness for C8 at a fresh thermostat and a script on which the
setpoint step's read raises while the other three steps succeed. -/
theorem c8_witness :
    (let tC := thermostat.init [0, 0, 1]
     let sC : Script :=
      [some [2, 98, 0, 0, 1, 15, 107, 2, 6],
       some [2, 80, 0, 0, 1, 0, 0, 0, 0, 0, 2],
       some [2, 98, 0, 0, 1, 15, 106, 32, 6],
       none,
       some [2, 98, 0, 0, 1, 15, 106, 96, 6],
       some [2, 80, 0, 0, 1, 0, 0, 0, 0, 0, 45],
       some (List.replicate 22 0 ++ [6]),
       some [0, 80, 0, 0, 0, 0, 0, 0, 0, 46, 0],
       some ([0, 81] ++ List.replicate 11 0 ++ [0, 215] ++ List.replicate 10 0)]
     let r1 := tC.modeStep sC
     let r2 := r1.st.setpointStep r1.script
     let r3 := r2.st.humidityStep r2.script
     let r4 := r3.st.tempStep r3.script
     ((tC.GetState sC).1).errorStatus = (r1.fail || r2.fail || r3.fail || r4.fail) ∧
     ((tC.GetState sC).1).mode = r1.st.mode ∧
     ((tC.GetState sC).1).modeText = r1.st.modeText ∧
     ((tC.GetState sC).1).targetHeat = r2.st.targetHeat ∧
     ((tC.GetState sC).1).targetCool = r2.st.targetCool ∧
     ((tC.GetState sC).1).actualHumi = r3.st.actualHumi ∧
     ((tC.GetState sC).1).actualTempTenths = r4.st.actualTempTenths ∧
     (r1.fail = true → ((tC.GetState sC).1).mode = tC.mode
       ∧ ((tC.GetState sC).1).modeText = tC.modeText) ∧
     (r2.fail = true → ((tC.GetState sC).1).targetHeat = tC.targetHeat
       ∧ ((tC.GetState sC).1).targetCool = tC.targetCool) ∧
     (r3.fail = true → ((tC.GetState sC).1).actualHumi = tC.actualHumi) ∧
     (r4.fail = true → ((tC.GetState sC).1).actualTempTenths = tC.actualTempTenths) ∧
     (tC.GetState sC).2.2
       = [.flushIn, .flushOut] ++ r1.trace ++ r2.trace ++ r3.trace ++ r4.trace) :=
  c8_getstate_steps (thermostat.init [0, 0, 1])
    [some [2, 98, 0, 0, 1, 15, 107, 2, 6],
     some [2, 80, 0, 0, 1, 0, 0, 0, 0, 0, 2],
     some [2, 98, 0, 0, 1, 15, 106, 32, 6],
     none,
     some [2, 98, 0, 0, 1, 15, 106, 96, 6],
     some [2, 80, 0, 0, 1, 0, 0, 0, 0, 0, 45],
     some (List.replicate 22 0 ++ [6]),
     some [0, 80, 0, 0, 0, 0, 0, 0, 0, 46, 0],
     some ([0, 81] ++ List.replicate 11 0 ++ [0, 215] ++ List.replicate 10 0)]
    (by decide) _ _ _ _ rfl rfl rfl rfl

/-! ### Claim C4 -/

theorem xorOne_le_one {x : Nat} (h : x ≤ 1) : x ^^^ 1 ≤ 1 := by
  interval_cases x <;> decide

theorem ite_xorOne_le_one {c : Prop} [Decidable c] {a : Nat} (h : a ≤ 1) :
    (if c then a ^^^ 1 else a) ≤ 1 := by
  split
  · exact xorOne_le_one h
  · exact h

theorem two_mul_lor_le_one (a fb : Nat) (h : fb ≤ 1) : 2 * a ||| fb = 2 * a + fb := by
  interval_cases fb
  · simp
  · have h1 : 2 * a = Nat.bit false a := by simp [Nat.bit_val]
    have h2 : (1 : Nat) = Nat.bit true 0 := by simp [Nat.bit_val]
    rw [h1, h2, Nat.lor_bit]
    simp [Nat.bit_val]

theorem shiftLor_mod (code fb : Nat) (hfb : fb ≤ 1) :
    ((code <<< 1) ||| fb) % 65536 = (2 * (code % 65536) + fb) % 65536 := by
  rw [Nat.shiftLeft_eq, pow_one, Nat.mul_comm, two_mul_lor_le_one code fb hfb]
  omega

theorem and_two_pow_ne_iff (code i : Nat) :
    code &&& 2 ^ i ≠ 0 ↔ code.testBit i = true := by
  rw [Nat.and_two_pow]
  cases h : code.testBit i <;> simp [Nat.pow_eq_zero]

theorem testBit_mod_65536 (code i : Nat) (h : i < 16) :
    (code % 65536).testBit i = code.testBit i := by
  rw [show (65536 : Nat) = 2 ^ 16 from rfl, Nat.testBit_mod_two_pow]
  simp [h]

theorem crcBitStep_fst_eq_ref (code byte : Nat) :
    (crcBitStep (code, byte)).1 % 65536 = refBitStep (code % 65536) (byte % 2) := by
  unfold crcBitStep refBitStep refFeedback
  have e15 : ((code, byte).1 &&& 0x8000 ≠ 0) ↔ ((code % 65536).testBit 15 = true) := by
    rw [testBit_mod_65536 code 15 (by omega)]
    exact and_two_pow_ne_iff code 15
  have e14 : ((code, byte).1 &&& 0x4000 ≠ 0) ↔ ((code % 65536).testBit 14 = true) := by
    rw [testBit_mod_65536 code 14 (by omega)]
    exact and_two_pow_ne_iff code 14
  have e12 : ((code, byte).1 &&& 0x1000 ≠ 0) ↔ ((code % 65536).testBit 12 = true) := by
    rw [testBit_mod_65536 code 12 (by omega)]
    exact and_two_pow_ne_iff code 12
  have e3 : ((code, byte).1 &&& 0x0008 ≠ 0) ↔ ((code % 65536).testBit 3 = true) := by
    rw [testBit_mod_65536 code 3 (by omega)]
    exact and_two_pow_ne_iff code 3
  simp only [e15, e14, e12, e3, Nat.and_one_is_mod]
  exact shiftLor_mod code _
    (ite_xorOne_le_one (ite_xorOne_le_one (ite_xorOne_le_one (ite_xorOne_le_one
      (by omega)))))

theorem crcBitStep_snd (code byte : Nat) :
    (crcBitStep (code, byte)).2 = byte / 2 := by
  unfold crcBitStep
  rw [Nat.shiftRight_eq_div_pow, pow_one]

theorem crcBitsLoop_eq_ref (k : Nat) : ∀ code byte : Nat,
    (crcBitsLoop k (code, byte)).1 % 65536 = refBitsAux k (code % 65536) byte := by
  induction k with
  | zero => intro code byte; rfl
  | succ k ih =>
    intro code byte
    rw [show crcBitsLoop (k + 1) (code, byte)
        = crcBitsLoop k (crcBitStep (code, byte)) from rfl]
    rw [show refBitsAux (k + 1) (code % 65536) byte
        = refBitsAux k (refBitStep (code % 65536) (byte % 2)) (byte / 2) from rfl]
    rw [show crcBitStep (code, byte)
        = ((crcBitStep (code, byte)).1, byte / 2) by
      rw [← crcBitStep_snd code byte]]
    rw [ih ((crcBitStep (code, byte)).1) (byte / 2), crcBitStep_fst_eq_ref]

theorem crcByteStep_eq_ref (code byte : Nat) :
    crcByteStep code byte % 65536 = refByteStep (code % 65536) byte :=
  crcBitsLoop_eq_ref 8 code byte

theorem crcFold_eq_ref (data : List Nat) : ∀ code : Nat,
    (data.foldl crcByteStep code) % 65536
      = data.foldl refByteStep (code % 65536) := by
  induction data with
  | nil => intro code; rfl
  | cons b bs ih =>
    intro code
    rw [List.foldl_cons, List.foldl_cons, ih (crcByteStep code b),
      crcByteStep_eq_ref code b]

/-- Claim C4: for every input byte sequence, the 2-byte CRC computed by
`CalcCrcStr` (unbounded Python accumulator, masked only at output) equals
the reference algorithm of the claim (16-bit accumulator, masked at every
shift, 8 bits per byte LSB first, output high byte first). -/
theorem c4_crc_matches_reference (dataStr : List Nat) :
    CalcCrcStr dataStr = refCrc dataStr := by
  simp only [CalcCrcStr, refCrc]
  have h := crcFold_eq_ref dataStr 0
  rw [Nat.zero_mod] at h
  rw [← h]
  rw [Nat.shiftRight_zero, Nat.shiftRight_eq_div_pow,
    show (0xff : Nat) = 2 ^ 8 - 1 from rfl,
    Nat.and_pow_two_sub_one_eq_mod, Nat.and_pow_two_sub_one_eq_mod,
    show (2 ^ 8 : Nat) = 256 from rfl]
  have hd : (dataStr.foldl crcByteStep 0) / 256 % 256
      = (dataStr.foldl crcByteStep 0) % 65536 / 256 % 256 := by omega
  have hm : (dataStr.foldl crcByteStep 0) % 256
      = (dataStr.foldl crcByteStep 0) % 65536 % 256 := by omega
  rw [hd, hm]

/-! ### Claim C3 -/

/-- Spec-side condition for the amended claim C3 (mirrors the marker
validation of `extFinish`): all lengths were correct and a marker or
command-echo check failed. -/
def ExtMarkerFail (tempStr cmdEcho stdAck response : List Nat)
    (extreadback : Bool) : Bool :=
  let lr := if extreadback then decide (response.length ≠ 25) else false
  if cmdEcho.length ≠ 23 ∨ stdAck.length ≠ 11 ∨ lr then false
  else
    (!(decide (cmdEcho.getLast? = some 0x06))
      || !(decide (stdAck.getD 1 0 = 0x50)
        && decide (stdAck.getD 9 0 = tempStr.getD 6 0)
        && decide (stdAck.getD 10 0 = tempStr.getD 7 0))
      || (if extreadback then !(decide (response.getD 1 0 = 0x51)) else false))

/-- Spec-side condition for the amended claim C3: the `StdCmd` exchange
passed validation, every read returned, the lengths were exact, and the
ACK/marker checks failed. -/
def StdCmdMisalign (s : Script) (cmdStr : List Nat) (nResponse : Nat) : Bool :=
  if cmdStr.length ≠ 8 then false
  else
    match serRead 9 s with
    | (none, _) => false
    | (some cmdEcho, s1) =>
      match readChunks nResponse s1 with
      | (none, _, _) => false
      | (some response, _, _) =>
        if cmdEcho.length ≠ 9 ∨ response.length ≠ 11 * nResponse then false
        else
          !(decide (cmdEcho.getLast? = some 0x06)) || stdErrFold response nResponse

/-- Spec-side condition for the amended claim C3: the `ExtCrc` exchange
reached marker validation and it failed. -/
def ExtCrcMisalign (s : Script) (cmdStr : List Nat) (extreadback : Bool) : Bool :=
  if cmdStr.length ≠ 20 then false
  else
    let tempStr := cmdStr ++ CalcCrcStr (cmdStr.drop (cmdStr.length - 14))
    match serRead 23 s with
    | (none, _) => false
    | (some cmdEcho, s1) =>
      match serRead 11 s1 with
      | (none, _) => false
      | (some stdAck, s2) =>
        if extreadback then
          match serRead 25 s2 with
          | (none, _) => false
          | (some response, _) => ExtMarkerFail tempStr cmdEcho stdAck response true
        else ExtMarkerFail tempStr cmdEcho stdAck [] false

/-- Spec-side condition for the amended claim C3: the `ExtChecksum`
exchange reached marker validation and it failed. -/
def ExtChecksumMisalign (s : Script) (cmdStr : List Nat) : Bool :=
  if cmdStr.length ≠ 21 then false
  else
    let tempStr := cmdStr ++ [frameChecksum (cmdStr.drop (cmdStr.length - 15))]
    match serRead 23 s with
    | (none, _) => false
    | (some cmdEcho, s1) =>
      match serRead 11 s1 with
      | (none, _) => false
      | (some stdAck, s2) =>
        match serRead 25 s2 with
        | (none, _) => false
        | (some response, _) => ExtMarkerFail tempStr cmdEcho stdAck response true

theorem readChunks_no_flush (n : Nat) : ∀ s : Script,
    SerEvent.flushIn ∉ (readChunks n s).2.2
      ∧ SerEvent.flushOut ∉ (readChunks n s).2.2 := by
  induction n with
  | zero => intro s; simp [readChunks]
  | succ n ih =>
    intro s
    rcases h9 : serRead 11 s with ⟨r, s1⟩
    cases r with
    | none => simp [readChunks, h9]
    | some bs =>
      rcases hrc : readChunks n s1 with ⟨rr, s2, tr⟩
      have := ih s1
      rw [hrc] at this
      cases rr with
      | none => simp [readChunks, h9, hrc]; exact this
      | some rest => simp [readChunks, h9, hrc]; exact this

theorem extFinish_flush_char (tempStr cmdEcho stdAck response : List Nat)
    (ext : Bool) (s : Script) (tr : Trace)
    (hin : SerEvent.flushIn ∉ tr) (hout : SerEvent.flushOut ∉ tr) :
    (ExtMarkerFail tempStr cmdEcho stdAck response ext = true →
      (extFinish tempStr cmdEcho stdAck response ext s tr).1.error = true ∧
      ∃ pre, (extFinish tempStr cmdEcho stdAck response ext s tr).2.2
          = pre ++ [SerEvent.flushIn, SerEvent.flushOut]
        ∧ SerEvent.flushIn ∉ pre ∧ SerEvent.flushOut ∉ pre) ∧
    (ExtMarkerFail tempStr cmdEcho stdAck response ext = false →
      SerEvent.flushIn ∉ (extFinish tempStr cmdEcho stdAck response ext s tr).2.2
        ∧ SerEvent.flushOut ∉ (extFinish tempStr cmdEcho stdAck response ext s tr).2.2) := by
  simp only [ExtMarkerFail, extFinish]
  by_cases hlen : cmdEcho.length ≠ 23 ∨ stdAck.length ≠ 11
      ∨ (if ext then decide (response.length ≠ 25) else false) = true
  · rw [if_pos hlen, if_pos hlen]
    exact ⟨fun h => by simp at h, fun _ => ⟨hin, hout⟩⟩
  · rw [if_neg hlen, if_neg hlen]
    by_cases hmk : (!(decide (cmdEcho.getLast? = some 0x06))
        || !(decide (stdAck.getD 1 0 = 0x50)
          && decide (stdAck.getD 9 0 = tempStr.getD 6 0)
          && decide (stdAck.getD 10 0 = tempStr.getD 7 0))
        || (if ext then !(decide (response.getD 1 0 = 0x51)) else false)) = true
    · rw [if_pos hmk]
      refine ⟨fun _ => ⟨rfl, tr, rfl, hin, hout⟩, fun hf => ?_⟩
      rw [hf] at hmk
      cases hmk
    · rw [if_neg hmk]
      exact ⟨fun h => absurd h hmk, fun _ => ⟨hin, hout⟩⟩

theorem StdCmd_flush_char (s : Script) (cmd : List Nat) (n : Nat) :
    (StdCmdMisalign s cmd n = true →
      (StdCmd s cmd n).1.error = true ∧
      ∃ pre, (StdCmd s cmd n).2.2 = pre ++ [SerEvent.flushIn, SerEvent.flushOut]
        ∧ SerEvent.flushIn ∉ pre ∧ SerEvent.flushOut ∉ pre) ∧
    (StdCmdMisalign s cmd n = false →
      SerEvent.flushIn ∉ (StdCmd s cmd n).2.2
        ∧ SerEvent.flushOut ∉ (StdCmd s cmd n).2.2) := by
  by_cases hlen : cmd.length ≠ 8
  · simp [StdCmd, StdCmdMisalign, hlen]
  rcases h9 : serRead 9 s with ⟨r9, s9⟩
  cases r9 with
  | none => simp [StdCmd, StdCmdMisalign, hlen, h9]
  | some e =>
    rcases hrc : readChunks n s9 with ⟨rr, s2, tr⟩
    have hnf := readChunks_no_flush n s9
    rw [hrc] at hnf
    have hnf1 : SerEvent.flushIn ∉ tr := hnf.1
    have hnf2 : SerEvent.flushOut ∉ tr := hnf.2
    cases rr with
    | none =>
      simp only [StdCmd, StdCmdMisalign, if_neg hlen, h9, hrc]
      constructor
      · intro h
        cases h
      · intro _
        exact ⟨by simp [hnf1], by simp [hnf2]⟩
    | some resp =>
      by_cases hl : e.length ≠ 9 ∨ resp.length ≠ 11 * n
      · simp only [StdCmd, StdCmdMisalign, if_neg hlen, h9, hrc, if_pos hl]
        constructor
        · intro h
          cases h
        · intro _
          exact ⟨by simp [hnf1], by simp [hnf2]⟩
      · by_cases hmk : (!(decide (e.getLast? = some 0x06)) || stdErrFold resp n) = true
        · simp only [StdCmd, StdCmdMisalign, if_neg hlen, h9, hrc, if_neg hl,
            if_pos hmk]
          constructor
          · intro _
            exact ⟨by trivial, SerEvent.write cmd :: SerEvent.read 9 :: tr,
              rfl, by simp [hnf1], by simp [hnf2]⟩
          · intro hf
            rw [hf] at hmk
            cases hmk
        · simp only [StdCmd, StdCmdMisalign, if_neg hlen, h9, hrc, if_neg hl,
            if_neg hmk]
          constructor
          · intro h
            exact absurd h hmk
          · intro _
            exact ⟨by simp [hnf1], by simp [hnf2]⟩

theorem ExtCrc_flush_char (s : Script) (cmd : List Nat) (ext : Bool) :
    (ExtCrcMisalign s cmd ext = true →
      (ExtCrc s cmd ext).1.error = true ∧
      ∃ pre, (ExtCrc s cmd ext).2.2 = pre ++ [SerEvent.flushIn, SerEvent.flushOut]
        ∧ SerEvent.flushIn ∉ pre ∧ SerEvent.flushOut ∉ pre) ∧
    (ExtCrcMisalign s cmd ext = false →
      SerEvent.flushIn ∉ (ExtCrc s cmd ext).2.2
        ∧ SerEvent.flushOut ∉ (ExtCrc s cmd ext).2.2) := by
  by_cases hlen : cmd.length ≠ 20
  · simp [ExtCrc, ExtCrcMisalign, hlen]
  rcases h23 : serRead 23 s with ⟨r1, s1⟩
  cases r1 with
  | none => simp [ExtCrc, ExtCrcMisalign, hlen, h23]
  | some cmdEcho =>
    rcases h11 : serRead 11 s1 with ⟨r2, s2⟩
    cases r2 with
    | none => simp [ExtCrc, ExtCrcMisalign, hlen, h23, h11]
    | some stdAck =>
      cases ext with
      | false =>
        simp only [ExtCrc, ExtCrcMisalign, if_neg hlen, h23, h11]
        exact extFinish_flush_char _ cmdEcho stdAck [] false s2 _
          (by simp) (by simp)
      | true =>
        rcases h25 : serRead 25 s2 with ⟨r3, s3⟩
        cases r3 with
        | none => simp [ExtCrc, ExtCrcMisalign, hlen, h23, h11, h25]
        | some response =>
          simp only [ExtCrc, ExtCrcMisalign, if_neg hlen, h23, h11, h25]
          exact extFinish_flush_char _ cmdEcho stdAck response true s3 _
            (by simp) (by simp)

theorem ExtChecksum_flush_char (s : Script) (cmd : List Nat) :
    (ExtChecksumMisalign s cmd = true →
      (ExtChecksum s cmd).1.error = true ∧
      ∃ pre, (ExtChecksum s cmd).2.2 = pre ++ [SerEvent.flushIn, SerEvent.flushOut]
        ∧ SerEvent.flushIn ∉ pre ∧ SerEvent.flushOut ∉ pre) ∧
    (ExtChecksumMisalign s cmd = false →
      SerEvent.flushIn ∉ (ExtChecksum s cmd).2.2
        ∧ SerEvent.flushOut ∉ (ExtChecksum s cmd).2.2) := by
  by_cases hlen : cmd.length ≠ 21
  · simp [ExtChecksum, ExtChecksumMisalign, hlen]
  rcases h23 : serRead 23 s with ⟨r1, s1⟩
  cases r1 with
  | none => simp [ExtChecksum, ExtChecksumMisalign, hlen, h23]
  | some cmdEcho =>
    rcases h11 : serRead 11 s1 with ⟨r2, s2⟩
    cases r2 with
    | none => simp [ExtChecksum, ExtChecksumMisalign, hlen, h23, h11]
    | some stdAck =>
      rcases h25 : serRead 25 s2 with ⟨r3, s3⟩
      cases r3 with
      | none => simp [ExtChecksum, ExtChecksumMisalign, hlen, h23, h11, h25]
      | some response =>
        simp only [ExtChecksum, ExtChecksumMisalign, if_neg hlen, h23, h11, h25]
        exact extFinish_flush_char _ cmdEcho stdAck response true s3 _
          (by simp) (by simp)

/-- Counterexample to claim C3 as stated: a `StdCmd` whose echo read
returns only 3 bytes (a length mismatch) returns an error without any
buffer flush — so not every error kind flushes the buffers. -/
theorem c3_counterexample :
    (StdCmd [some [0, 0, 0]] [2, 98, 0, 0, 1, 15, 25, 0] 1).1.error = true ∧
    SerEvent.flushIn ∉ (StdCmd [some [0, 0, 0]] [2, 98, 0, 0, 1, 15, 25, 0] 1).2.2 ∧
    SerEvent.flushOut ∉ (StdCmd [some [0, 0, 0]] [2, 98, 0, 0, 1, 15, 25, 0] 1).2.2 := by
  decide

/-- Amended claim C3: in every exchange (`StdCmd`, `ExtCrc`,
`ExtChecksum`), both buffers are flushed — input then output, exactly
once, just before returning — precisely when the exchange reached marker
validation and it failed (a marker/echo mismatch); validation, I/O and
length-mismatch errors return with no flush at all, and a marker
mismatch always returns an error. -/
theorem c3_amended_flush_only_on_misalign :
    (∀ (s : Script) (cmd : List Nat) (n : Nat),
      (StdCmdMisalign s cmd n = true →
        (StdCmd s cmd n).1.error = true ∧
        ∃ pre, (StdCmd s cmd n).2.2 = pre ++ [SerEvent.flushIn, SerEvent.flushOut]
          ∧ SerEvent.flushIn ∉ pre ∧ SerEvent.flushOut ∉ pre) ∧
      (StdCmdMisalign s cmd n = false →
        SerEvent.flushIn ∉ (StdCmd s cmd n).2.2
          ∧ SerEvent.flushOut ∉ (StdCmd s cmd n).2.2)) ∧
    (∀ (s : Script) (cmd : List Nat) (ext : Bool),
      (ExtCrcMisalign s cmd ext = true →
        (ExtCrc s cmd ext).1.error = true ∧
        ∃ pre, (ExtCrc s cmd ext).2.2 = pre ++ [SerEvent.flushIn, SerEvent.flushOut]
          ∧ SerEvent.flushIn ∉ pre ∧ SerEvent.flushOut ∉ pre) ∧
      (ExtCrcMisalign s cmd ext = false →
        SerEvent.flushIn ∉ (ExtCrc s cmd ext).2.2
          ∧ SerEvent.flushOut ∉ (ExtCrc s cmd ext).2.2)) ∧
    (∀ (s : Script) (cmd : List Nat),
      (ExtChecksumMisalign s cmd = true →
        (ExtChecksum s cmd).1.error = true ∧
        ∃ pre, (ExtChecksum s cmd).2.2 = pre ++ [SerEvent.flushIn, SerEvent.flushOut]
          ∧ SerEvent.flushIn ∉ pre ∧ SerEvent.flushOut ∉ pre) ∧
      (ExtChecksumMisalign s cmd = false →
        SerEvent.flushIn ∉ (ExtChecksum s cmd).2.2
          ∧ SerEvent.flushOut ∉ (ExtChecksum s cmd).2.2)) :=
  ⟨fun s cmd n => StdCmd_flush_char s cmd n,
   fun s cmd ext => ExtCrc_flush_char s cmd ext,
   fun s cmd => ExtChecksum_flush_char s cmd⟩

/-- Witness for the amended C3: a correctly-sized reply whose standard-ack
marker byte is not 0x50 yields an error with both buffers flushed exactly
once at the end of the trace, while a short echo yields an error with no
flush. -/
theorem c3_amended_witness :
    ((StdCmd [some [0, 0, 0, 0, 0, 0, 0, 0, 6],
        some [0, 0, 0, 0, 0, 0, 0, 0, 0, 0, 0]] [2, 98, 0, 0, 1, 15, 25, 0] 1).1.error
        = true ∧
      ∃ pre, (StdCmd [some [0, 0, 0, 0, 0, 0, 0, 0, 6],
          some [0, 0, 0, 0, 0, 0, 0, 0, 0, 0, 0]] [2, 98, 0, 0, 1, 15, 25, 0] 1).2.2
          = pre ++ [SerEvent.flushIn, SerEvent.flushOut]
        ∧ SerEvent.flushIn ∉ pre ∧ SerEvent.flushOut ∉ pre) ∧
    (SerEvent.flushIn
        ∉ (StdCmd [some [0, 0, 0]] [2, 98, 0, 0, 1, 15, 25, 0] 1).2.2
      ∧ SerEvent.flushOut
        ∉ (StdCmd [some [0, 0, 0]] [2, 98, 0, 0, 1, 15, 25, 0] 1).2.2) :=
  ⟨(c3_amended_flush_only_on_misalign.1 [some [0, 0, 0, 0, 0, 0, 0, 0, 6],
      some [0, 0, 0, 0, 0, 0, 0, 0, 0, 0, 0]] [2, 98, 0, 0, 1, 15, 25, 0] 1).1
    (by decide),
   (c3_amended_flush_only_on_misalign.1 [some [0, 0, 0]]
      [2, 98, 0, 0, 1, 15, 25, 0] 1).2 (by decide)⟩
